import Mathlib

/-!
Verification development for the port-based message-passing framework in
`src/message_passing_examples/core.py` (classes `Block`, `Network`, `Agent`,
`SimpleAgent`).  The Python code is shallowly embedded: dictionaries become
association lists, `multiprocessing.SimpleQueue` objects become natural-number
queue identifiers pointing into an explicit store of message lists, and every
`raise` becomes an `Except`/structured-error value.  Python object identity of
a queue is modelled by equality of its numeric identifier; fresh queues are
allocated from a counter threaded through the constructors.
-/

/-- A Python message value.  `str s` is a Python string; `obj n` stands for any
non-string payload (messages are arbitrary Python objects; only string
equality with the sentinel matters to the framework). -/
inductive Msg where
  | str (s : String)
  | obj (n : Nat)
deriving DecidableEq, Repr

/-- The reserved termination sentinel: the plain string literal compared with
`msg == "__STOP__"` in `SimpleAgent.run` (core.py line 608). -/
def stopMsg : Msg := Msg.str "__STOP__"

/-- The global store of queue contents: queue identifier to the list of
messages currently in the queue, oldest first. -/
def Store : Type := Nat → List Msg

/-- The store in which every queue is empty. -/
def store0 : Store := fun _ => []

/-- Replace the contents of queue `q` in store `s` by `l`. -/
def updStore (s : Store) (q : Nat) (l : List Msg) : Store :=
  fun k => if k = q then l else s k

/-- Python `d[k]` / `k in d` for a dict modelled as an association list:
the value at the first occurrence of key `k`, if any. -/
def alookup {α : Type} : List (String × α) → String → Option α
  | [], _ => none
  | (k, v) :: rest, key => if k = key then some v else alookup rest key

/-- Python `d[k] = v`: replace the value at the first occurrence of `k`,
or append the binding if `k` is absent. -/
def aupdate {α : Type} : List (String × α) → String → α → List (String × α)
  | [], key, v => [(key, v)]
  | (k, w) :: rest, key, v =>
    if k = key then (k, v) :: rest else (k, w) :: aupdate rest key v

/-- A connection 4-tuple `(from_block, from_port, to_block, to_port)`
(core.py `Network` docstring, item 5). -/
structure Conn where
  fromBlock : String
  fromPort : String
  toBlock : String
  toPort : String
deriving DecidableEq, Repr

/-- A constructed block.  `agent` is a leaf `Agent`; `net` is a `Network`
(itself a `Block`).  `in_q` maps an inport name to its queue (`some q`) or to
a Python `None` (`none`); likewise `out_q` for outports, which start
unconnected (`none`, core.py lines 147-151). -/
inductive BlockS where
  | agent (name : String) (inports outports : List String)
      (in_q out_q : List (String × Option Nat))
  | net (name : String) (inports outports : List String)
      (blocks : List (String × BlockS)) (connections : List Conn)
      (in_q out_q : List (String × Option Nat))

/-- The block's `self.name`. -/
def BlockS.name : BlockS → String
  | .agent n _ _ _ _ => n
  | .net n _ _ _ _ _ _ => n

/-- The block's `self.inports`. -/
def BlockS.inports : BlockS → List String
  | .agent _ ip _ _ _ => ip
  | .net _ ip _ _ _ _ _ => ip

/-- The block's `self.outports`. -/
def BlockS.outports : BlockS → List String
  | .agent _ _ op _ _ => op
  | .net _ _ op _ _ _ _ => op

/-- The block's `self.in_q` dictionary. -/
def BlockS.in_q : BlockS → List (String × Option Nat)
  | .agent _ _ _ iq _ => iq
  | .net _ _ _ _ _ iq _ => iq

/-- The block's `self.out_q` dictionary. -/
def BlockS.out_q : BlockS → List (String × Option Nat)
  | .agent _ _ _ _ oq => oq
  | .net _ _ _ _ _ _ oq => oq

/-- The network's `self.blocks` dictionary (empty for a leaf agent). -/
def BlockS.blocks : BlockS → List (String × BlockS)
  | .agent _ _ _ _ _ => []
  | .net _ _ _ bs _ _ _ => bs

/-- The network's `self.connections` list (empty for a leaf agent). -/
def BlockS.connections : BlockS → List Conn
  | .agent _ _ _ _ _ => []
  | .net _ _ _ _ cs _ _ => cs

/-- Replace the block's `out_q` dictionary. -/
def BlockS.withOutQ : BlockS → List (String × Option Nat) → BlockS
  | .agent n ip op iq _, oq => .agent n ip op iq oq
  | .net n ip op bs cs iq _, oq => .net n ip op bs cs iq oq

/-- Allocate one fresh queue per port name, as `Block.__init__` does for
inports (`{port: SimpleQueue() for port in self.inports}`); returns the
dictionary and the bumped allocation counter. -/
def allocQueues : List String → Nat → List (String × Option Nat) × Nat
  | [], c => ([], c)
  | p :: ps, c =>
    let r := allocQueues ps (c + 1)
    ((p, some c) :: r.1, r.2)

/-- Errors raised by `Network.connect_ports` (all surfaced as `ValueError`,
core.py lines 216-283; `notAQueue` is the `TypeError` branch re-raised as a
wrapped `ValueError`, and `badBlockName` is the `KeyError` branch). -/
inductive ConnErr where
  | inPortNotInNetwork (p net : String)
  | inPortNotInBlock (p blk : String)
  | outPortNotInNetwork (p net : String)
  | outPortNotInBlock (p blk : String)
  | notAQueue
  | badBlockName (blk : String)
deriving DecidableEq, Repr

/-- Errors raised synchronously by the constructors (`ValueError` in Python). -/
inductive MkErr where
  | dupInports (blk : String)
  | dupOutports (blk : String)
  | connectFailed (e : ConnErr)
  | handleMsgWithoutInport
deriving DecidableEq, Repr

/-- `Block.__init__` duplicate-port checks combined with `Agent.__init__`
(core.py lines 121-156 and 497-530).  `Block.__init__` allocates one queue per
inport; `Agent.__init__` then rebuilds `in_q`/`out_q` the same way (lines
520-527), so two allocations happen and the first is discarded.  Returns the
constructed agent and the bumped queue counter. -/
def mkAgent (name : String) (inports outports : List String) (c : Nat) :
    Except MkErr (BlockS × Nat) :=
  if inports.Nodup then
    if outports.Nodup then
      let blockAlloc := allocQueues inports c
      let agentAlloc := allocQueues inports blockAlloc.2
      .ok (.agent name inports outports agentAlloc.1
             (outports.map fun o => (o, (none : Option Nat))), agentAlloc.2)
    else .error (.dupOutports name)
  else .error (.dupInports name)

/-- Errors raised by `Agent.send` / `Agent.recv` (`ValueError` in Python,
core.py lines 532-553). -/
inductive AgentErr where
  | invalidOutPort (p agentName : String)
  | outPortNotConnected (p agentName : String)
  | invalidInPort (p agentName : String)
  | inPortNotConnected (p agentName : String)
deriving DecidableEq, Repr

/-- `Agent.send(msg, outport)` (core.py lines 532-541): invalid-port error if
the outport is not declared or absent from `out_q`; not-connected error if its
queue slot is still `None`; otherwise `put` the message (append to the queue,
never blocking). -/
def send (a : BlockS) (msg : Msg) (outport : String) (s : Store) :
    Except AgentErr Store :=
  if outport ∉ a.outports ∨ alookup a.out_q outport = none then
    .error (.invalidOutPort outport a.name)
  else
    match alookup a.out_q outport with
    | some none => .error (.outPortNotConnected outport a.name)
    | some (some q) => .ok (updStore s q (s q ++ [msg]))
    | none => .error (.invalidOutPort outport a.name)

/-- Result of `Agent.recv`: an error, a suspension (queue empty — `get()`
blocks the caller), or the dequeued head message with the updated store. -/
inductive RecvRes where
  | err (e : AgentErr)
  | blockedOnGet
  | got (m : Msg) (s : Store)

/-- `Agent.recv(inport)` (core.py lines 543-553): invalid-port error if the
inport is not declared or absent from `in_q`; not-connected error if its slot
is `None`; otherwise `get()` — block while the queue is empty, else dequeue
and return the oldest message. -/
def recv (a : BlockS) (inport : String) (s : Store) : RecvRes :=
  if inport ∉ a.inports ∨ alookup a.in_q inport = none then
    .err (.invalidInPort inport a.name)
  else
    match alookup a.in_q inport with
    | some none => .err (.inPortNotConnected inport a.name)
    | some (some q) =>
      match s q with
      | [] => .blockedOnGet
      | m :: rest => .got m (updStore s q rest)
    | none => .err (.invalidInPort inport a.name)

/-- Observable events of a `SimpleAgent.run` execution: the one-time
initializer call, a `recv` returning a message, and a `handle_msg` call. -/
inductive SAEvent where
  | initE
  | recvE (m : Msg)
  | handleE (m : Msg)
deriving DecidableEq, Repr

/-- Whether a `SimpleAgent.run` execution finished (`break` or early return)
or is suspended forever inside `recv` on an exhausted input stream. -/
inductive SAStatus where
  | terminated
  | blockedOnRecv
deriving DecidableEq, Repr

/-- The message loop of `SimpleAgent.run` (core.py lines 606-610): `recv` the
next message from the single designated inport; `break` if it equals
`"__STOP__"`; otherwise call `handle_msg` on it and continue.  The argument is
the stream of messages that arrive on the inport; an exhausted stream leaves
the loop blocked inside `recv`. -/
def saLoop : List Msg → List SAEvent × SAStatus
  | [] => ([], .blockedOnRecv)
  | m :: rest =>
    if m = Msg.str "__STOP__" then ([SAEvent.recvE m], .terminated)
    else
      let r := saLoop rest
      (SAEvent.recvE m :: SAEvent.handleE m :: r.1, r.2)

/-- `SimpleAgent.run` (core.py lines 598-610): run `init_fn` if present, then
return immediately when `handle_msg` is absent, else enter the message loop.
(`agent.py` lines 27-40 define the same control flow for its `Agent.run`.) -/
def saRun (hasInitFn hasHandleMsg : Bool) (input : List Msg) :
    List SAEvent × SAStatus :=
  let pre := if hasInitFn then [SAEvent.initE] else []
  if hasHandleMsg then
    let r := saLoop input
    (pre ++ r.1, r.2)
  else (pre, .terminated)

/-- Update, inside the `blocks` dictionary, the out-queue slot of port `port`
of the block named `bn` (the Python assignment
`self.blocks[from_block].out_q[from_port] = ...`). -/
def setBlockOutQ : List (String × BlockS) → String → String → Option Nat →
    List (String × BlockS)
  | [], _, _, _ => []
  | (k, b) :: rest, bn, port, v =>
    if k = bn then (k, b.withOutQ (aupdate b.out_q port v)) :: rest
    else (k, b) :: setBlockOutQ rest bn port v

/-- One iteration of the loop in `Network.connect_ports` (core.py lines
218-283), acting on the network state `(blocks, in_q, out_q)`.  The three
branches are boundary-in (`from_block == "external"`), boundary-out
(`to_block == "external"`), and internal; each re-raised exception becomes a
`ConnErr`. -/
def connectStep (nname : String)
    (blocks : List (String × BlockS)) (iq oq : List (String × Option Nat))
    (c : Conn) :
    Except ConnErr (List (String × BlockS) × List (String × Option Nat) ×
      List (String × Option Nat)) :=
  if c.fromBlock = "external" then
    -- core.py lines 220-238: requires from_port to already be a key of
    -- self.in_q before aliasing it to the destination inport queue
    if alookup iq c.fromPort = none then
      .error (.inPortNotInNetwork c.fromPort nname)
    else
      match alookup blocks c.toBlock with
      | none => .error (.badBlockName c.toBlock)
      | some tb =>
        match alookup tb.in_q c.toPort with
        | none => .error (.inPortNotInBlock c.toPort c.toBlock)
        | some none => .error .notAQueue
        | some (some q) => .ok (blocks, aupdate iq c.fromPort (some q), oq)
  else if c.toBlock = "external" then
    -- core.py lines 239-257
    if alookup oq c.toPort = none then
      .error (.outPortNotInNetwork c.toPort nname)
    else
      match alookup blocks c.fromBlock with
      | none => .error (.badBlockName c.fromBlock)
      | some fb =>
        if alookup fb.out_q c.fromPort = none then
          .error (.outPortNotInBlock c.fromPort c.fromBlock)
        else
          match alookup oq c.toPort with
          | some (some q) =>
            .ok (setBlockOutQ blocks c.fromBlock c.fromPort (some q), iq, oq)
          | _ => .error .notAQueue
  else
    -- core.py lines 258-275
    match alookup blocks c.fromBlock with
    | none => .error (.badBlockName c.fromBlock)
    | some fb =>
      if alookup fb.out_q c.fromPort = none then
        .error (.outPortNotInBlock c.fromPort c.fromBlock)
      else
        match alookup blocks c.toBlock with
        | none => .error (.badBlockName c.toBlock)
        | some tb =>
          match alookup tb.in_q c.toPort with
          | none => .error (.inPortNotInBlock c.toPort c.toBlock)
          | some none => .error .notAQueue
          | some (some q) =>
            .ok (setBlockOutQ blocks c.fromBlock c.fromPort (some q), iq, oq)

/-- The whole loop of `Network.connect_ports`: process the connection list in
order, threading the network state, stopping at the first error. -/
def connectFold (nname : String)
    (blocks : List (String × BlockS)) (iq oq : List (String × Option Nat)) :
    List Conn →
    Except ConnErr (List (String × BlockS) × List (String × Option Nat) ×
      List (String × Option Nat))
  | [] => .ok (blocks, iq, oq)
  | c :: cs =>
    match connectStep nname blocks iq oq c with
    | .error e => .error e
    | .ok (b2, i2, o2) => connectFold nname b2 i2 o2 cs

mutual

/-- `Network.connect` (core.py lines 285-297): first recursively connect every
child that is itself a `Network`, then wire this network's own connection
list via `connect_ports`.  On a leaf agent this is the identity (`connect` is
only defined on `Network`). -/
def connectB : BlockS → Except ConnErr BlockS
  | .agent n ip op iq oq => .ok (.agent n ip op iq oq)
  | .net n ip op bs cs iq oq =>
    match connectChildren bs with
    | .error e => .error e
    | .ok bs2 =>
      match connectFold n bs2 iq oq cs with
      | .error e => .error e
      | .ok (bs3, iq2, oq2) => .ok (.net n ip op bs3 cs iq2 oq2)

/-- Step 1 of `Network.connect`: `for block in self.blocks.values(): if
isinstance(block, Network): block.connect()`. -/
def connectChildren : List (String × BlockS) → Except ConnErr (List (String × BlockS))
  | [] => .ok []
  | (k, b) :: rest =>
    match (match b with
           | .agent _ _ _ _ _ => Except.ok b
           | .net _ _ _ _ _ _ _ => connectB b) with
    | .error e => .error e
    | .ok b2 =>
      match connectChildren rest with
      | .error e => .error e
      | .ok rest2 => .ok ((k, b2) :: rest2)

end

/-- `Network.__init__` (core.py lines 299-330): run `Block.__init__` (the
duplicate-port checks and the inport-queue allocation), then discard those
queues by resetting `self.in_q` and `self.out_q` to empty dictionaries, store
`blocks` and `connections`, and call `self.connect()`.  Note that `run` does
not wire anything: wiring happens here, at construction time. -/
def mkNetwork (name : String) (inports outports : List String)
    (blocks : List (String × BlockS)) (connections : List Conn) (c : Nat) :
    Except MkErr (BlockS × Nat) :=
  if inports.Nodup then
    if outports.Nodup then
      let blockAlloc := allocQueues inports c
      match connectB (.net name inports outports blocks connections [] []) with
      | .error e => .error (.connectFailed e)
      | .ok b => .ok (b, blockAlloc.2)
    else .error (.dupOutports name)
  else .error (.dupInports name)

/-- Errors raised by `Network.check` (all `ValueError`, core.py lines
332-482).  Constructors carry the data interpolated into the Python error
message; `portNotOnce` is `assert_single_connection` with the number of
connections found, and `outportCount` is the error of step 5 with the two
counts reported in the message. -/
inductive CheckErr where
  | reservedExternal
  | netNoInport (net p : String)
  | biBlockMissing (net p blk : String)
  | biPortBad (net p blk tp : String)
  | netNoOutport (net p : String)
  | boBlockMissing (net p blk : String)
  | boPortBad (net p blk fp : String)
  | intFromMissing (net blk : String)
  | intToMissing (net blk : String)
  | intOutportMissing (net blk p : String)
  | intInportMissing (net blk p : String)
  | portNotOnce (net port : String) (isInportSide : Bool) (found : Nat)
  | outportCount (net blk outport : String) (nExt nInt : Nat)
deriving DecidableEq, Repr

/-- A non-fatal diagnostic printed by `check` (the `WARNING` of core.py lines
478-482): input port `inport` of block `blk` of network `net` is not
connected. -/
inductive Warn where
  | inportUnconnected (inport blk net : String)
deriving DecidableEq, Repr

/-- Connections from network inport `inport` (`e[0] == "external" and
e[1] == inport`, core.py lines 422-424). -/
def extMatches (cs : List Conn) (inport : String) : List Conn :=
  cs.filter fun e => e.fromBlock == "external" && e.fromPort == inport

/-- Connections to network outport `outport` (`e[2] == "external" and
e[3] == outport`, core.py lines 430-433). -/
def extOutMatches (cs : List Conn) (outport : String) : List Conn :=
  cs.filter fun e => e.toBlock == "external" && e.toPort == outport

/-- Connections from outport `o` of block `bn` to the network boundary
(core.py lines 442-446). -/
def outToExternal (cs : List Conn) (bn o : String) : List Conn :=
  cs.filter fun e => e.fromBlock == bn && e.fromPort == o && e.toBlock == "external"

/-- Connections from outport `o` of block `bn` to another block (core.py
lines 447-451). -/
def outToInternal (cs : List Conn) (bn o : String) : List Conn :=
  cs.filter fun e => e.fromBlock == bn && e.fromPort == o && !(e.toBlock == "external")

/-- Boundary connections into inport `i` of block `bn` (core.py lines
467-471). -/
def inFromExternal (cs : List Conn) (bn i : String) : List Conn :=
  cs.filter fun e => e.fromBlock == "external" && e.toPort == i && e.toBlock == bn

/-- Internal connections into inport `i` of block `bn` (core.py lines
472-476). -/
def inFromInternal (cs : List Conn) (bn i : String) : List Conn :=
  cs.filter fun e => e.toPort == i && e.toBlock == bn && !(e.fromBlock == "external")

/-- The helper `assert_single_connection` (core.py lines 350-354): fatal
unless exactly one matching connection was found; the error carries the
number found.  `isInportSide` records whether the port description named a
network inport or outport. -/
def assertSingleConnection (netName port : String) (isInportSide : Bool)
    (n : Nat) : Except CheckErr Unit :=
  if n ≠ 1 then .error (.portNotOnce netName port isInportSide n) else .ok ()

/-- Run an `Except`-valued check on every element of a list in order,
stopping at the first error (the Python `for` loops of `check`). -/
def forEachE {α : Type} : List α → (α → Except CheckErr Unit) → Except CheckErr Unit
  | [], _ => .ok ()
  | x :: xs, f =>
    match f x with
    | .error e => .error e
    | .ok _ => forEachE xs f

/-- Step 1 of `check` (core.py lines 356-360): the reserved name `external`
may not be a block name. -/
def checkReservedF (blocks : List (String × BlockS)) : Except CheckErr Unit :=
  if (alookup blocks "external").isSome then .error .reservedExternal else .ok ()

/-- The `connect[0] == "external"` clause of step 2 of `check` (core.py lines
365-379).  Note line 375: the destination port `connect[3]` is checked
against the NETWORK's own inports, not against the inports of block
`connect[2]`. -/
def checkConnBI (nname : String) (ninports : List String)
    (blocks : List (String × BlockS)) (c : Conn) : Except CheckErr Unit :=
  if c.fromBlock = "external" then
    if c.fromPort ∉ ninports then .error (.netNoInport nname c.fromPort)
    else if (alookup blocks c.toBlock).isNone then
      .error (.biBlockMissing nname c.fromPort c.toBlock)
    else if c.toPort ∉ ninports then
      .error (.biPortBad nname c.fromPort c.toBlock c.toPort)
    else .ok ()
  else .ok ()

/-- The `connect[2] == "external"` clause of step 2 of `check` (core.py lines
382-396).  Note line 392: the source port `connect[1]` is checked against the
NETWORK's own outports, not against the outports of block `connect[0]`. -/
def checkConnBO (nname : String) (noutports : List String)
    (blocks : List (String × BlockS)) (c : Conn) : Except CheckErr Unit :=
  if c.toBlock = "external" then
    if c.toPort ∉ noutports then .error (.netNoOutport nname c.toPort)
    else if (alookup blocks c.fromBlock).isNone then
      .error (.boBlockMissing nname c.toPort c.fromBlock)
    else if c.fromPort ∉ noutports then
      .error (.boPortBad nname c.toPort c.fromBlock c.fromPort)
    else .ok ()
  else .ok ()

/-- The internal-connection clause of step 2 of `check` (core.py lines
398-418): both block names must be declared children, the source port must be
an outport of the source block, and the destination port an inport of the
destination block. -/
def checkConnInt (nname : String) (blocks : List (String × BlockS))
    (c : Conn) : Except CheckErr Unit :=
  if c.fromBlock ≠ "external" ∧ c.toBlock ≠ "external" then
    match alookup blocks c.fromBlock with
    | none => .error (.intFromMissing nname c.fromBlock)
    | some fb =>
      match alookup blocks c.toBlock with
      | none => .error (.intToMissing nname c.toBlock)
      | some tb =>
        if c.fromPort ∉ fb.outports then
          .error (.intOutportMissing nname c.fromBlock c.fromPort)
        else if c.toPort ∉ tb.inports then
          .error (.intInportMissing nname c.toBlock c.toPort)
        else .ok ()
  else .ok ()

/-- Step 2 of `check` for one connection: the three successive
(non-exclusive) `if` blocks. -/
def checkConn (nname : String) (ninports noutports : List String)
    (blocks : List (String × BlockS)) (c : Conn) : Except CheckErr Unit :=
  match checkConnBI nname ninports blocks c with
  | .error e => .error e
  | .ok _ =>
    match checkConnBO nname noutports blocks c with
    | .error e => .error e
    | .ok _ => checkConnInt nname blocks c

/-- Step 2 of `check`: validate every connection in order. -/
def checkConnsF (nname : String) (ninports noutports : List String)
    (blocks : List (String × BlockS)) (cs : List Conn) : Except CheckErr Unit :=
  forEachE cs (checkConn nname ninports noutports blocks)

/-- Step 3 of `check` (core.py lines 421-427): every network inport must be
the source of exactly one boundary-in connection. -/
def checkNetInportsF (nname : String) (ninports : List String)
    (cs : List Conn) : Except CheckErr Unit :=
  forEachE ninports fun p =>
    assertSingleConnection nname p true (extMatches cs p).length

/-- Step 4 of `check` (core.py lines 430-436): every network outport must be
the destination of exactly one boundary-out connection. -/
def checkNetOutportsF (nname : String) (noutports : List String)
    (cs : List Conn) : Except CheckErr Unit :=
  forEachE noutports fun p =>
    assertSingleConnection nname p false (extOutMatches cs p).length

/-- The outport test inside step 5 of `check` (core.py lines 441-463): an
outport of a child block must have either exactly one boundary-out connection
and no internal one, or exactly one internal connection and no boundary-out
one; otherwise the error reports both counts. -/
def checkOneOutport (nname : String) (cs : List Conn) (bn o : String) :
    Except CheckErr Unit :=
  let toExt := outToExternal cs bn o
  let toInt := outToInternal cs bn o
  if toExt.length = 1 ∧ toInt.length = 0 then .ok ()
  else if toInt.length = 1 ∧ toExt.length = 0 then .ok ()
  else .error (.outportCount nname bn o toExt.length toInt.length)

/-- The inport diagnostics inside step 5 of `check` (core.py lines 465-482):
a child inport with no incoming connection is only warned about, never an
error. -/
def warnsFor (nname bn : String) (blk : BlockS) (cs : List Conn) : List Warn :=
  blk.inports.filterMap fun i =>
    if (inFromExternal cs bn i).length + (inFromInternal cs bn i).length = 0
    then some (.inportUnconnected i bn nname) else none

/-- Step 5 of `check` (core.py lines 438-482): for each child block, validate
all of its outports (fatal) and diagnose its unconnected inports
(warnings). -/
def checkBlocksF (nname : String) (cs : List Conn) :
    List (String × BlockS) → Except CheckErr (List Warn)
  | [] => .ok []
  | (bn, blk) :: rest =>
    match forEachE blk.outports (checkOneOutport nname cs bn) with
    | .error e => .error e
    | .ok _ =>
      match checkBlocksF nname cs rest with
      | .error e => .error e
      | .ok ws => .ok (warnsFor nname bn blk cs ++ ws)

/-- `Network.check` on the fields of a network: steps 1-5 in program order,
returning the collected warnings on success. -/
def checkNetFields (n : String) (ip op : List String)
    (bs : List (String × BlockS)) (cs : List Conn) :
    Except CheckErr (List Warn) :=
  match checkReservedF bs with
  | .error e => .error e
  | .ok _ =>
    match checkConnsF n ip op bs cs with
    | .error e => .error e
    | .ok _ =>
      match checkNetInportsF n ip cs with
      | .error e => .error e
      | .ok _ =>
        match checkNetOutportsF n op cs with
        | .error e => .error e
        | .ok _ => checkBlocksF n cs bs

/-- `Network.check` (core.py lines 332-482).  `check` is a `Network` method
and is never invoked on a leaf agent. -/
def checkNet : BlockS → Except CheckErr (List Warn)
  | .agent _ _ _ _ _ => .ok []
  | .net n ip op bs cs _ _ => checkNetFields n ip op bs cs

/-- Step 5 of `check` with the warning collection stripped out: only the
fatal outport tests, used to state that the inport diagnostics never affect
whether `check` raises. -/
def checkOutportsOnlyF (nname : String) (cs : List Conn) :
    List (String × BlockS) → Except CheckErr Unit
  | [] => .ok ()
  | (bn, blk) :: rest =>
    match forEachE blk.outports (checkOneOutport nname cs bn) with
    | .error e => .error e
    | .ok _ => checkOutportsOnlyF nname cs rest

/-- `Network.check` with the warning collection stripped out (steps 1-5, but
step 5 reduced to its fatal outport tests). -/
def checkErrorsOnly (n : String) (ip op : List String)
    (bs : List (String × BlockS)) (cs : List Conn) : Except CheckErr Unit :=
  match checkReservedF bs with
  | .error e => .error e
  | .ok _ =>
    match checkConnsF n ip op bs cs with
    | .error e => .error e
    | .ok _ =>
      match checkNetInportsF n ip cs with
      | .error e => .error e
      | .ok _ =>
        match checkNetOutportsF n op cs with
        | .error e => .error e
        | .ok _ => checkOutportsOnlyF n cs bs

/-- An observable messaging event during execution: a `put` on a queue or a
`get` from a queue. -/
inductive Event where
  | sent (q : Nat) (m : Msg)
  | received (q : Nat) (m : Msg)
deriving DecidableEq, Repr

/-- Result of running one child block to quiescence within `Network.run`:
normal return with the updated store, suspension inside a blocking `recv`
(which, under the sequential execution of core.py lines 489-490, hangs the
whole `run`), or a raised exception (re-raised by `run` wrapped in a
`RuntimeError`). -/
inductive ChildRes where
  | done (s : Store) (evs : List Event)
  | blockedC (evs : List Event)
  | raisedC (msg : String) (evs : List Event)

/-- The behaviour of each child's `run` method, keyed by the child's name in
the `blocks` dictionary.  Child `run` bodies are arbitrary user Python
functions, so they are a parameter of the execution model. -/
def Sems : Type := String → Store → ChildRes

/-- Outcome of `Network.run`: a validation error from `check` (raised before
any child executes), a child exception wrapped in `RuntimeError` (core.py
lines 491-493), a hang (a child blocked in `recv` under the sequential loop),
or normal completion with the final store and the event trace. -/
inductive RunOutcome where
  | validationError (e : CheckErr)
  | runtimeError (msg : String) (evs : List Event)
  | hung (evs : List Event)
  | completed (s : Store) (evs : List Event)

/-- Whether the outcome is a hang. -/
def RunOutcome.isHung : RunOutcome → Bool
  | .hung _ => true
  | _ => false

/-- Whether the outcome is normal completion. -/
def RunOutcome.isCompleted : RunOutcome → Bool
  | .completed _ _ => true
  | _ => false

/-- The validation error of the outcome, if that is what it is. -/
def runVErr : RunOutcome → Option CheckErr
  | .validationError e => some e
  | _ => none

/-- The sequential loop `for block in self.blocks.values(): block.run()` of
`Network.run` (core.py lines 488-490): each child runs to quiescence before
the next child starts. -/
def runChildren (sem : Sems) : List String → Store → List Event → RunOutcome
  | [], s, evs => .completed s evs
  | b :: rest, s, evs =>
    match sem b s with
    | .done s2 e2 => runChildren sem rest s2 (evs ++ e2)
    | .blockedC e2 => .hung (evs ++ e2)
    | .raisedC m e2 => .runtimeError m (evs ++ e2)

/-- `Network.run` (core.py lines 484-493): `self.check()` first, then execute
the children sequentially.  `run` performs no wiring (no call to `connect`,
which ran at construction). -/
def runNet (b : BlockS) (sem : Sems) (s : Store) : RunOutcome :=
  match checkNet b with
  | .error e => .validationError e
  | .ok _ => runChildren sem (b.blocks.map Prod.fst) s []

/-- A trivial child semantics: every child returns at once, sending
nothing. -/
def semTriv : Sems := fun _ s => .done s []

/-- Modelled from the spec (wiring invariant 1 of spec.md section 3): every
referenced block name exists among the children or is the reserved
`external`, and the referenced port exists on that block (or on the network
boundary) with the matching direction. -/
def specConnOk (ninports noutports : List String)
    (blocks : List (String × BlockS)) (c : Conn) : Bool :=
  (if c.fromBlock == "external" then decide (c.fromPort ∈ ninports)
   else
     match alookup blocks c.fromBlock with
     | some fb => decide (c.fromPort ∈ fb.outports)
     | none => false) &&
  (if c.toBlock == "external" then decide (c.toPort ∈ noutports)
   else
     match alookup blocks c.toBlock with
     | some tb => decide (c.toPort ∈ tb.inports)
     | none => false)

/-- Modelled from the spec (wiring invariants 1-4 of spec.md section 3):
every connection references existing blocks and ports with matching
direction; every network inport is the source of exactly one boundary-in
connection; every network outport is the destination of exactly one
boundary-out connection; every child outport is the source of exactly one
connection in total.  (Invariant 5 permits anything, so it has no check.) -/
def specWiringOk (b : BlockS) : Bool :=
  (b.connections.all (specConnOk b.inports b.outports b.blocks)) &&
  (b.inports.all fun p => (extMatches b.connections p).length == 1) &&
  (b.outports.all fun p => (extOutMatches b.connections p).length == 1) &&
  (b.blocks.all fun pr => pr.2.outports.all fun o =>
    (b.connections.filter fun e => e.fromBlock == pr.1 && e.fromPort == o).length == 1)

/-- The connected queue slot of outport `port` of child `bn` of network `b`:
`some (some q)` when wired to queue `q`, `some none` when the slot is still
`None`, `none` when block or port is missing. -/
def outQOf (b : BlockS) (bn port : String) : Option (Option Nat) :=
  (alookup b.blocks bn).bind fun blk => alookup blk.out_q port

/-- The inport queue of inport `port` of child `bn` of network `b`. -/
def inQOf (b : BlockS) (bn port : String) : Option (Option Nat) :=
  (alookup b.blocks bn).bind fun blk => alookup blk.in_q port

/-- The events `recv` + `handle_msg` produced by the loop of
`SimpleAgent.run` for a list of non-sentinel messages. -/
def saHandled : List Msg → List SAEvent
  | [] => []
  | m :: rest => SAEvent.recvE m :: SAEvent.handleE m :: saHandled rest

/-- Two agents `A` (outport `o`) and `B` (inport `i`) composed with the SAME
internal connection listed twice — `connect_ports` wires it (twice) at
construction although `check` will reject it. -/
def c1Build : Except MkErr (BlockS × Nat) :=
  match mkAgent "A" [] ["o"] 0 with
  | .error e => .error e
  | .ok (a, c1) =>
    match mkAgent "B" ["i"] [] c1 with
    | .error e => .error e
    | .ok (bb, c2) =>
      mkNetwork "N" [] [] [("A", a), ("B", bb)]
        [⟨"A", "o", "B", "i"⟩, ⟨"A", "o", "B", "i"⟩] c2

/-- A network with one boundary-in connection, exactly as documented in the
core.py module docstring (case 1): network inport `in` feeding inport `a_in`
of child `A`. -/
def c3Build : Except MkErr (BlockS × Nat) :=
  match mkAgent "A" ["a_in"] [] 0 with
  | .error e => .error e
  | .ok (a, c1) =>
    mkNetwork "N" ["in"] [] [("A", a)] [⟨"external", "in", "A", "a_in"⟩] c1

/-- The two-agent pipeline of `test_core.py::test_two_agents`, with the
sender listed first in the blocks dictionary. -/
def buildSenderReceiver : Except MkErr (BlockS × Nat) :=
  match mkAgent "sender" [] ["output"] 0 with
  | .error e => .error e
  | .ok (snd, c1) =>
    match mkAgent "receiver" ["input"] [] c1 with
    | .error e => .error e
    | .ok (r, c2) =>
      mkNetwork "net" [] [] [("sender", snd), ("receiver", r)]
        [⟨"sender", "output", "receiver", "input"⟩] c2

/-- The same pipeline with the receiver listed first in the blocks
dictionary. -/
def buildReceiverSender : Except MkErr (BlockS × Nat) :=
  match mkAgent "receiver" ["input"] [] 0 with
  | .error e => .error e
  | .ok (r, c1) =>
    match mkAgent "sender" [] ["output"] c1 with
    | .error e => .error e
    | .ok (snd, c2) =>
      mkNetwork "net" [] [] [("receiver", r), ("sender", snd)]
        [⟨"sender", "output", "receiver", "input"⟩] c2

/-- The sender of `test_two_agents`: send `"Hello"`, then the sentinel, then
return (its `run_fn` never blocks). -/
def senderSem (q : Nat) (s : Store) : ChildRes :=
  .done (updStore s q (s q ++ [Msg.str "Hello", Msg.str "__STOP__"]))
    [Event.sent q (Msg.str "Hello"), Event.sent q (Msg.str "__STOP__")]

/-- Split a queue's contents at the first sentinel: the consumed prefix
(including the sentinel) and the remainder, or `none` when no sentinel is
present yet. -/
def consumeUntilStop : List Msg → Option (List Msg × List Msg)
  | [] => none
  | m :: rest =>
    if m = Msg.str "__STOP__" then some ([m], rest)
    else
      match consumeUntilStop rest with
      | none => none
      | some (cons, r) => some (m :: cons, r)

/-- The receiver of `test_two_agents`: loop `recv` on its queue until the
sentinel arrives; under sequential execution it can only consume what is
already queued, and blocks if the sentinel is not among it. -/
def receiverSem (q : Nat) (s : Store) : ChildRes :=
  match consumeUntilStop (s q) with
  | none => .blockedC ((s q).map (Event.received q))
  | some (cons, r) => .done (updStore s q r) (cons.map (Event.received q))

/-- The child semantics of the two-agent pipeline; queue 1 is the queue
allocated for the receiver's inport `input` in both build orders. -/
def pipeSems : Sems := fun n s =>
  if n = "sender" then senderSem 1 s
  else if n = "receiver" then receiverSem 1 s
  else .done s []

/-- A leaf agent with one inport `a`, as built by `Agent.__init__`. -/
def c4AgentA : BlockS := .agent "A" ["a"] [] [("a", some 0)] []

/-- A network state whose two boundary-in connections name ports `q` and `p`
on child `A` — ports that do NOT exist on `A` (its only inport is `a`) but
that happen to be inport names of the network itself. -/
def c4NetBad : BlockS :=
  .net "N" ["p", "q"] [] [("A", c4AgentA)]
    [⟨"external", "p", "A", "q"⟩, ⟨"external", "q", "A", "p"⟩] [] []

/-- A network state with one well-formed boundary-in connection: network
inport `p` feeds inport `a` of child `A` (`a` really is an inport of `A`). -/
def c4NetGood : BlockS :=
  .net "M" ["p"] [] [("A", c4AgentA)] [⟨"external", "p", "A", "a"⟩] [] []

/-- A network whose child `A` declares outport `o` but whose connection list
is empty: outport `o` has zero connections. -/
def buildZeroOut : Except MkErr (BlockS × Nat) :=
  match mkAgent "A" [] ["o"] 0 with
  | .error e => .error e
  | .ok (a, c1) => mkNetwork "Z" [] [] [("A", a)] [] c1

/-- A network whose child `B` declares inport `i` and whose connection list
is empty: inport `i` is unconnected, which is only a warning. -/
def buildLoneIn : Except MkErr (BlockS × Nat) :=
  match mkAgent "B" ["i"] [] 0 with
  | .error e => .error e
  | .ok (bb, c1) => mkNetwork "L" [] [] [("B", bb)] [] c1

/-- An agent as it looks after wiring: inport `i` on queue 0, outport `o`
wired to queue 1. -/
def wiredAgent : BlockS := .agent "W" ["i"] ["o"] [("i", some 0)] [("o", some 1)]

/-- An empty network (no ports, no children, no connections). -/
def emptyNet : BlockS := .net "E" [] [] [] [] [] []

theorem saLoop_of_stop_mem (input : List Msg)
    (h : Msg.str "__STOP__" ∈ input) :
    saLoop input =
      (saHandled (input.takeWhile fun m => !decide (m = Msg.str "__STOP__")) ++
        [SAEvent.recvE (Msg.str "__STOP__")], SAStatus.terminated) := by
  induction input with
  | nil => cases h
  | cons m rest ih =>
    by_cases hm : m = Msg.str "__STOP__"
    · subst hm
      simp [saLoop, List.takeWhile_cons, saHandled]
    · have hrest : Msg.str "__STOP__" ∈ rest := by
        rcases List.mem_cons.mp h with h1 | h1
        · exact absurd h1.symm hm
        · exact h1
      simp [saLoop, hm, List.takeWhile_cons, saHandled, ih hrest]

theorem saLoop_no_stop_handle (input : List Msg) :
    SAEvent.handleE (Msg.str "__STOP__") ∉ (saLoop input).1 := by
  induction input with
  | nil => simp [saLoop]
  | cons m rest ih =>
    by_cases hm : m = Msg.str "__STOP__"
    · subst hm; simp [saLoop]
    · simp [saLoop, hm]
      exact ⟨fun hEq => hm hEq.symm, ih⟩

theorem saLoop_terminated_mem (input : List Msg)
    (h : (saLoop input).2 = SAStatus.terminated) :
    Msg.str "__STOP__" ∈ input := by
  induction input with
  | nil => simp [saLoop] at h
  | cons m rest ih =>
    by_cases hm : m = Msg.str "__STOP__"
    · subst hm; exact List.mem_cons_self _ _
    · simp [saLoop, hm] at h
      exact List.mem_cons_of_mem _ (ih h)

/-- C6: `SimpleAgent.run` runs the initializer once when present; with no
per-message handler it terminates immediately after it; with a handler it
loops on the designated inport, and on the first sentinel it terminates
without a handler call and performs no further `recv` — before that, every
received message is passed to the handler in order. -/
theorem C6_simple_agent_run (hi : Bool) (input : List Msg) :
    saRun hi false input =
      ((if hi then [SAEvent.initE] else []), SAStatus.terminated) ∧
    (Msg.str "__STOP__" ∈ input →
      saRun hi true input =
        ((if hi then [SAEvent.initE] else []) ++
          (saHandled (input.takeWhile fun m => !decide (m = Msg.str "__STOP__")) ++
            [SAEvent.recvE (Msg.str "__STOP__")]),
         SAStatus.terminated)) := by
  constructor
  · simp [saRun]
  · intro h
    simp [saRun, saLoop_of_stop_mem input h]

theorem C6_simple_agent_run_witness :
    Msg.str "__STOP__" ∈ [Msg.obj 0, Msg.str "__STOP__", Msg.obj 3] ∧
    saRun true true [Msg.obj 0, Msg.str "__STOP__", Msg.obj 3] =
      ([SAEvent.initE, SAEvent.recvE (Msg.obj 0), SAEvent.handleE (Msg.obj 0),
        SAEvent.recvE (Msg.str "__STOP__")], SAStatus.terminated) := by
  have hmem : Msg.str "__STOP__" ∈ [Msg.obj 0, Msg.str "__STOP__", Msg.obj 3] := by
    decide
  have h := (C6_simple_agent_run true
    [Msg.obj 0, Msg.str "__STOP__", Msg.obj 3]).2 hmem
  exact ⟨hmem, by simpa using h⟩

/-- C10: the termination sentinel is exactly the string `"__STOP__"`,
compared by equality: receiving it — also as a genuine user payload —
terminates the loop at once without a handler call, the handler is never
invoked on the sentinel value, and no other message value ever terminates
the loop. -/
theorem C10_sentinel (m : Msg) (rest input : List Msg) :
    (saLoop (m :: rest) = ([SAEvent.recvE m], SAStatus.terminated) ↔
      m = Msg.str "__STOP__") ∧
    SAEvent.handleE (Msg.str "__STOP__") ∉ (saLoop input).1 ∧
    ((saLoop input).2 = SAStatus.terminated → Msg.str "__STOP__" ∈ input) := by
  refine ⟨?_, saLoop_no_stop_handle input, saLoop_terminated_mem input⟩
  constructor
  · intro h
    by_contra hm
    simp [saLoop, hm] at h
  · intro h
    subst h
    simp [saLoop]

theorem C10_sentinel_witness :
    saLoop [Msg.str "__STOP__"] =
      ([SAEvent.recvE (Msg.str "__STOP__")], SAStatus.terminated) ∧
    Msg.str "__STOP__" ∈ [Msg.str "__STOP__"] := by
  refine ⟨(C10_sentinel (Msg.str "__STOP__") [] []).1.mpr rfl, ?_⟩
  exact (C10_sentinel (Msg.str "__STOP__") [] [Msg.str "__STOP__"]).2.2 (by decide)

theorem allocQueues_mem (ps : List String) (c : Nat) (p : String)
    (h : p ∈ ps) : ∃ q, alookup (allocQueues ps c).1 p = some (some q) := by
  induction ps generalizing c with
  | nil => cases h
  | cons x xs ih =>
    by_cases hx : x = p
    · exact ⟨c, by simp [allocQueues, alookup, hx]⟩
    · have hmem : p ∈ xs := by
        rcases List.mem_cons.mp h with h1 | h1
        · exact absurd h1.symm hx
        · exact h1
      rcases ih (c + 1) hmem with ⟨q, hq⟩
      exact ⟨q, by simp [allocQueues, alookup, hx, hq]⟩

/-- C7: `Agent.send` fails with the invalid-port error on an undeclared
outport and with the not-connected error on a declared but unwired outport,
and otherwise appends the message to the connected queue without blocking;
`Agent.recv` fails with the invalid-port error on an undeclared inport, and
otherwise is suspended exactly while the port's queue is empty and then
dequeues and returns the oldest message (per-port FIFO); on an agent built by
`Agent.__init__`, every declared inport has its queue from construction. -/
theorem C7_send_recv (a : BlockS) (msg : Msg) (p : String) (s : Store) :
    (p ∉ a.outports → send a msg p s = .error (.invalidOutPort p a.name)) ∧
    (p ∈ a.outports → alookup a.out_q p = some none →
      send a msg p s = .error (.outPortNotConnected p a.name)) ∧
    (∀ q, p ∈ a.outports → alookup a.out_q p = some (some q) →
      send a msg p s = .ok (updStore s q (s q ++ [msg]))) ∧
    (p ∉ a.inports → recv a p s = .err (.invalidInPort p a.name)) ∧
    (∀ q, p ∈ a.inports → alookup a.in_q p = some (some q) →
      (s q = [] → recv a p s = .blockedOnGet) ∧
      (∀ m rest, s q = m :: rest → recv a p s = .got m (updStore s q rest))) ∧
    (∀ nm ip op c0 a2 c1, mkAgent nm ip op c0 = .ok (a2, c1) → a = a2 →
      p ∈ a.inports → ∃ q, alookup a.in_q p = some (some q)) := by
  refine ⟨?_, ?_, ?_, ?_, ?_, ?_⟩
  · intro h
    simp [send, h]
  · intro hp hq
    simp [send, hp, hq]
  · intro q hp hq
    simp [send, hp, hq]
  · intro h
    simp [recv, h]
  · intro q hp hq
    constructor
    · intro hs
      simp [recv, hp, hq, hs]
    · intro m rest hs
      simp [recv, hp, hq, hs]
  · intro nm ip op c0 a2 c1 hmk hEq hp
    subst hEq
    unfold mkAgent at hmk
    by_cases hip : ip.Nodup
    · by_cases hop : op.Nodup
      · simp [hip, hop] at hmk
        obtain ⟨ha, _⟩ := hmk
        have hip2 : p ∈ ip := by
          have h2 : a.inports = ip := by rw [← ha]; rfl
          rwa [h2] at hp
        have hq := allocQueues_mem ip (allocQueues ip c0).2 p hip2
        have hin : a.in_q = (allocQueues ip (allocQueues ip c0).2).1 := by
          rw [← ha]; rfl
        rwa [hin]
      · simp [hip, hop] at hmk
    · simp [hip] at hmk

theorem C7_send_recv_witness :
    send wiredAgent (Msg.obj 7) "nope" store0 =
      .error (.invalidOutPort "nope" "W") ∧
    send (.agent "F" [] ["o"] [] [("o", none)]) (Msg.obj 7) "o" store0 =
      .error (.outPortNotConnected "o" "F") ∧
    send wiredAgent (Msg.obj 7) "o" store0 =
      .ok (updStore store0 1 (store0 1 ++ [Msg.obj 7])) ∧
    recv wiredAgent "nope" store0 = .err (.invalidInPort "nope" "W") ∧
    recv wiredAgent "i" store0 = .blockedOnGet ∧
    recv wiredAgent "i" (updStore store0 0 [Msg.obj 1, Msg.obj 2]) =
      .got (Msg.obj 1) (updStore (updStore store0 0 [Msg.obj 1, Msg.obj 2]) 0
        [Msg.obj 2]) := by
  refine ⟨?_, ?_, ?_, ?_, ?_, ?_⟩
  · exact (C7_send_recv wiredAgent (Msg.obj 7) "nope" store0).1 (by decide)
  · exact (C7_send_recv (.agent "F" [] ["o"] [] [("o", none)]) (Msg.obj 7) "o"
      store0).2.1 (by decide) rfl
  · exact (C7_send_recv wiredAgent (Msg.obj 7) "o" store0).2.2.1 1 (by decide) rfl
  · exact (C7_send_recv wiredAgent (Msg.obj 7) "nope" store0).2.2.2.1 (by decide)
  · exact ((C7_send_recv wiredAgent (Msg.obj 7) "i" store0).2.2.2.2.1 0
      (by decide) rfl).1 rfl
  · exact ((C7_send_recv wiredAgent (Msg.obj 7) "i"
      (updStore store0 0 [Msg.obj 1, Msg.obj 2])).2.2.2.2.1 0 (by decide) rfl).2
      (Msg.obj 1) [Msg.obj 2] (by simp [updStore, store0])

/-- C1 counterexample: in the network built by `c1Build` the wiring HAS been
performed (child `A`'s outport `o` is assigned queue 1) although validation
never succeeded — `run` on it reports the validation error.  So wiring does
not happen inside `run` after a successful `check`: it happens at
construction, before any validation, refuting the claimed
check-then-connect-then-execute order of `run`. -/
theorem C1_counterexample :
    (c1Build.toOption.map fun pr => outQOf pr.1 "A" "o") = some (some (some 1)) ∧
    (c1Build.toOption.map fun pr => runVErr (runNet pr.1 semTriv store0)) =
      some (some (.outportCount "N" "A" "o" 0 2)) := by
  exact ⟨rfl, rfl⟩

/-- C1 (amended): each invocation of `run` performs validation (`check`)
first and exactly once; when validation fails `run` raises that validation
error, and when it succeeds `run` proceeds directly to executing the children
sequentially — it performs no wiring (wiring happened once, in the
constructor, before any validation). -/
theorem C1_amended_run_order (b : BlockS) (sem : Sems) (s : Store) :
    (∀ e, checkNet b = .error e → runNet b sem s = .validationError e) ∧
    (∀ w, checkNet b = .ok w →
      runNet b sem s = runChildren sem (b.blocks.map Prod.fst) s []) := by
  constructor
  · intro e he
    simp [runNet, he]
  · intro w hw
    simp [runNet, hw]

theorem C1_amended_run_order_witness :
    runNet emptyNet semTriv store0 =
      runChildren semTriv (emptyNet.blocks.map Prod.fst) store0 [] :=
  (C1_amended_run_order emptyNet semTriv store0).2 [] rfl

/-- C3: evaluating the constructor at the failing input — the boundary-in
network of `c3Build`, exactly the module docstring's case 1 — shows `connect`
raising instead of aliasing the network inport queue to the child's inport
queue: `Network.__init__` resets `self.in_q` to `{}` before `connect`, and
`connect_ports` demands the key be already present.  Internal connections do
alias the identical queue object: in `buildSenderReceiver` the sender's
outport slot and the receiver's inport hold the same queue 1. -/
theorem C3_boundary_wiring_eval :
    c3Build = .error (.connectFailed (.inPortNotInNetwork "in" "N")) ∧
    (buildSenderReceiver.toOption.map fun pr => outQOf pr.1 "sender" "output") =
      some (some (some 1)) ∧
    (buildSenderReceiver.toOption.map fun pr => inQOf pr.1 "receiver" "input") =
      some (some (some 1)) := by
  exact ⟨rfl, rfl, rfl⟩

/-- C4: evaluating `check` at the failing inputs.  `c4NetBad`'s connections
name ports on child `A` that `A` does not declare (refuted by `specConnOk`),
yet `check` accepts the network, because core.py lines 375/392 test the child
port name against the network's own port list; conversely the well-formed
boundary-in network `c4NetGood` is rejected by `check` with that same
misdirected test. -/
theorem C4_check_port_validation_eval :
    checkNet c4NetBad = .ok [Warn.inportUnconnected "a" "A" "N"] ∧
    specConnOk c4NetBad.inports c4NetBad.outports c4NetBad.blocks
      ⟨"external", "p", "A", "q"⟩ = false ∧
    checkNet c4NetGood = .error (.biPortBad "M" "p" "A" "a") := by
  exact ⟨rfl, rfl, rfl⟩

/-- C9: evaluating `Network.run` on the two-agent pipeline of
`test_core.py::test_two_agents` shows the children are executed sequentially
in `blocks`-dictionary order within a single execution context, not as
concurrently scheduled units: with the receiver listed first the run hangs
(the receiver blocks on `recv` from an empty queue before the sender ever
runs), while with the sender listed first the same network completes. -/
theorem C9_sequential_execution_eval :
    (buildReceiverSender.toOption.map fun pr =>
      (runNet pr.1 pipeSems store0).isHung) = some true ∧
    (buildSenderReceiver.toOption.map fun pr =>
      (runNet pr.1 pipeSems store0).isCompleted) = some true := by
  exact ⟨rfl, rfl⟩

theorem forEachE_ok_of_mem {α : Type} (l : List α)
    (f : α → Except CheckErr Unit) (h : forEachE l f = .ok ()) {x : α}
    (hx : x ∈ l) : f x = .ok () := by
  induction l with
  | nil => cases hx
  | cons y ys ih =>
    unfold forEachE at h
    cases hfy : f y with
    | error e => rw [hfy] at h; simp at h
    | ok u =>
      rw [hfy] at h
      rcases List.mem_cons.mp hx with h1 | h1
      · subst h1; cases u; exact hfy
      · exact ih h h1

theorem assertSingleConnection_ok {n p : String} {b : Bool} {k : Nat}
    (h : assertSingleConnection n p b k = .ok ()) : k = 1 := by
  unfold assertSingleConnection at h
  by_cases hk : k ≠ 1
  · simp [hk] at h
  · exact not_not.mp hk

theorem checkOneOutport_ok_iff (n : String) (cs : List Conn) (bn o : String) :
    checkOneOutport n cs bn o = .ok () ↔
      (outToExternal cs bn o).length + (outToInternal cs bn o).length = 1 := by
  unfold checkOneOutport
  constructor
  · intro h
    by_cases h1 : (outToExternal cs bn o).length = 1 ∧
        (outToInternal cs bn o).length = 0
    · omega
    · by_cases h2 : (outToInternal cs bn o).length = 1 ∧
          (outToExternal cs bn o).length = 0
      · omega
      · rw [if_neg h1, if_neg h2] at h
        exact absurd h (by simp)
  · intro h
    by_cases h1 : (outToExternal cs bn o).length = 1 ∧
        (outToInternal cs bn o).length = 0
    · rw [if_pos h1]
    · have h2 : (outToInternal cs bn o).length = 1 ∧
          (outToExternal cs bn o).length = 0 := by omega
      rw [if_neg h1, if_pos h2]

theorem checkOneOutport_error (n : String) (cs : List Conn) (bn o : String)
    (h : (outToExternal cs bn o).length + (outToInternal cs bn o).length ≠ 1) :
    checkOneOutport n cs bn o =
      .error (.outportCount n bn o (outToExternal cs bn o).length
        (outToInternal cs bn o).length) := by
  unfold checkOneOutport
  have h1 : ¬((outToExternal cs bn o).length = 1 ∧
      (outToInternal cs bn o).length = 0) := by omega
  have h2 : ¬((outToInternal cs bn o).length = 1 ∧
      (outToExternal cs bn o).length = 0) := by omega
  rw [if_neg h1, if_neg h2]

theorem checkNetFields_ok {n : String} {ip op : List String}
    {bs : List (String × BlockS)} {cs : List Conn} {w : List Warn}
    (h : checkNetFields n ip op bs cs = .ok w) :
    checkReservedF bs = .ok () ∧ checkConnsF n ip op bs cs = .ok () ∧
    checkNetInportsF n ip cs = .ok () ∧ checkNetOutportsF n op cs = .ok () ∧
    checkBlocksF n cs bs = .ok w := by
  unfold checkNetFields at h
  cases h1 : checkReservedF bs with
  | error e => rw [h1] at h; simp at h
  | ok u1 =>
    rw [h1] at h
    cases h2 : checkConnsF n ip op bs cs with
    | error e => rw [h2] at h; simp at h
    | ok u2 =>
      rw [h2] at h
      cases h3 : checkNetInportsF n ip cs with
      | error e => rw [h3] at h; simp at h
      | ok u3 =>
        rw [h3] at h
        cases h4 : checkNetOutportsF n op cs with
        | error e => rw [h4] at h; simp at h
        | ok u4 =>
          rw [h4] at h
          cases u1; cases u2; cases u3; cases u4
          exact ⟨rfl, rfl, rfl, rfl, h⟩

theorem checkBlocksF_ok_mem (n : String) (cs : List Conn) (bn : String)
    (blk : BlockS) (o : String) :
    ∀ (bs : List (String × BlockS)) (w : List Warn),
      checkBlocksF n cs bs = .ok w → (bn, blk) ∈ bs → o ∈ blk.outports →
      checkOneOutport n cs bn o = .ok () := by
  intro bs
  induction bs with
  | nil => intro w _ hmem _; cases hmem
  | cons hd tl ih =>
    intro w h hmem ho
    obtain ⟨bn2, blk2⟩ := hd
    unfold checkBlocksF at h
    cases h1 : forEachE blk2.outports (checkOneOutport n cs bn2) with
    | error e => rw [h1] at h; simp at h
    | ok u =>
      rw [h1] at h
      cases h2 : checkBlocksF n cs tl with
      | error e => rw [h2] at h; simp at h
      | ok ws2 =>
        rcases List.mem_cons.mp hmem with hm | hm
        · cases hm
          exact forEachE_ok_of_mem _ _ h1 ho
        · exact ih ws2 h2 hm ho

theorem checkBlocksF_warn_mem (n : String) (cs : List Conn) :
    ∀ (bs : List (String × BlockS)) (w : List Warn),
      checkBlocksF n cs bs = .ok w → ∀ (bn : String) (blk : BlockS),
      (bn, blk) ∈ bs → ∀ x ∈ warnsFor n bn blk cs, x ∈ w := by
  intro bs
  induction bs with
  | nil => intro w _ bn blk hmem _ _; cases hmem
  | cons hd tl ih =>
    intro w h bn blk hmem x hxw
    obtain ⟨bn2, blk2⟩ := hd
    unfold checkBlocksF at h
    cases h1 : forEachE blk2.outports (checkOneOutport n cs bn2) with
    | error e => rw [h1] at h; simp at h
    | ok u =>
      rw [h1] at h
      cases h2 : checkBlocksF n cs tl with
      | error e => rw [h2] at h; simp at h
      | ok ws2 =>
        rw [h2] at h
        simp only [Except.ok.injEq] at h
        subst h
        rcases List.mem_cons.mp hmem with hm | hm
        · cases hm
          exact List.mem_append_left _ hxw
        · exact List.mem_append_right _ (ih ws2 h2 bn blk hm x hxw)

theorem checkBlocksF_isSome (n : String) (cs : List Conn) :
    ∀ bs : List (String × BlockS),
      (checkBlocksF n cs bs).toOption.isSome =
        (checkOutportsOnlyF n cs bs).toOption.isSome := by
  intro bs
  induction bs with
  | nil => rfl
  | cons hd tl ih =>
    obtain ⟨bn, blk⟩ := hd
    unfold checkBlocksF checkOutportsOnlyF
    cases h1 : forEachE blk.outports (checkOneOutport n cs bn) with
    | error e => rfl
    | ok u =>
      cases h2 : checkBlocksF n cs tl with
      | error e =>
        cases h3 : checkOutportsOnlyF n cs tl with
        | error e2 => rfl
        | ok u2 => rw [h2, h3] at ih; simp [Except.toOption] at ih
      | ok ws2 =>
        cases h3 : checkOutportsOnlyF n cs tl with
        | error e2 => rw [h2, h3] at ih; simp [Except.toOption] at ih
        | ok u2 => rfl

/-- C5: for every declared outport of every child block, the step-5 outport
test of `check` passes exactly when the outport is the source of exactly one
connection (one boundary-out or one internal); with any other count (0 or
2 or more) it raises the fatal error carrying both counts found, the whole
`check` fails, and `run` reports a validation error instead of proceeding. -/
theorem C5_single_outport (b : BlockS) (bn : String) (blk : BlockS) (o : String)
    (hmem : (bn, blk) ∈ b.blocks) (ho : o ∈ blk.outports) :
    (checkOneOutport b.name b.connections bn o = .ok () ↔
      (outToExternal b.connections bn o).length +
        (outToInternal b.connections bn o).length = 1) ∧
    ((outToExternal b.connections bn o).length +
        (outToInternal b.connections bn o).length ≠ 1 →
      checkOneOutport b.name b.connections bn o =
        .error (.outportCount b.name bn o
          (outToExternal b.connections bn o).length
          (outToInternal b.connections bn o).length) ∧
      (∃ e, checkNet b = .error e) ∧
      (∀ sem s, ∃ e, runNet b sem s = .validationError e)) := by
  refine ⟨checkOneOutport_ok_iff _ _ _ _, fun hne => ?_⟩
  have hex : ∃ e, checkNet b = .error e := by
    cases hc : checkNet b with
    | error e => exact ⟨e, rfl⟩
    | ok w =>
      exfalso
      cases b with
      | agent nm ip2 op2 iq oq => simp [BlockS.blocks] at hmem
      | net n ip op bs cs iq oq =>
        simp only [BlockS.blocks] at hmem
        have hd := checkNetFields_ok
          (show checkNetFields n ip op bs cs = .ok w from hc)
        have hok := checkBlocksF_ok_mem n cs bn blk o bs w hd.2.2.2.2 hmem ho
        rw [checkOneOutport_ok_iff] at hok
        exact hne hok
  refine ⟨checkOneOutport_error _ _ _ _ hne, hex, ?_⟩
  intro sem s
  obtain ⟨e, he⟩ := hex
  exact ⟨e, by simp [runNet, he]⟩

theorem C5_single_outport_witness :
    checkOneOutport "Z" [] "A" "o" = .error (.outportCount "Z" "A" "o" 0 0) ∧
    ∃ e, checkNet (.net "Z" [] []
      [("A", .agent "A" [] ["o"] [] [("o", none)])] [] [] []) = .error e := by
  have h := (C5_single_outport
    (.net "Z" [] [] [("A", .agent "A" [] ["o"] [] [("o", none)])] [] [] [])
    "A" (.agent "A" [] ["o"] [] [("o", none)]) "o"
    (by simp [BlockS.blocks]) (by simp [BlockS.outports])).2 (by decide)
  exact ⟨h.1, h.2.1⟩

/-- C8: a child inport with zero incoming connections never affects whether
`check` raises — the fatal outcome of `check` coincides with the fatal
outcome of the same phases with the inport diagnostics removed — and on
success `check` reports such an inport with a (non-fatal) warning in its
output. -/
theorem C8_unconnected_inport_nonfatal (n : String) (ip op : List String)
    (bs : List (String × BlockS)) (cs : List Conn) (w : List Warn)
    (bn : String) (blk : BlockS) (i : String) :
    ((checkNetFields n ip op bs cs).toOption.isSome =
      (checkErrorsOnly n ip op bs cs).toOption.isSome) ∧
    (checkNetFields n ip op bs cs = .ok w → (bn, blk) ∈ bs →
      i ∈ blk.inports →
      (inFromExternal cs bn i).length + (inFromInternal cs bn i).length = 0 →
      Warn.inportUnconnected i bn n ∈ w) := by
  constructor
  · unfold checkNetFields checkErrorsOnly
    cases h1 : checkReservedF bs with
    | error e => rfl
    | ok u1 =>
      cases h2 : checkConnsF n ip op bs cs with
      | error e => rfl
      | ok u2 =>
        cases h3 : checkNetInportsF n ip cs with
        | error e => rfl
        | ok u3 =>
          cases h4 : checkNetOutportsF n op cs with
          | error e => rfl
          | ok u4 => exact checkBlocksF_isSome n cs bs
  · intro h hmem hi hcount
    have hblocks := (checkNetFields_ok h).2.2.2.2
    have hwarn : Warn.inportUnconnected i bn n ∈ warnsFor n bn blk cs := by
      unfold warnsFor
      refine List.mem_filterMap.mpr ⟨i, hi, ?_⟩
      rw [if_pos hcount]
    exact checkBlocksF_warn_mem n cs bs w hblocks bn blk hmem _ hwarn

theorem C8_unconnected_inport_nonfatal_witness :
    checkNetFields "L" [] [] [("B", .agent "B" ["i"] [] [("i", some 1)] [])] [] =
      .ok [Warn.inportUnconnected "i" "B" "L"] ∧
    Warn.inportUnconnected "i" "B" "L" ∈ [Warn.inportUnconnected "i" "B" "L"] := by
  refine ⟨rfl, ?_⟩
  exact (C8_unconnected_inport_nonfatal "L" [] []
    [("B", .agent "B" ["i"] [] [("i", some 1)] [])] []
    [Warn.inportUnconnected "i" "B" "L"] "B"
    (.agent "B" ["i"] [] [("i", some 1)] []) "i").2 rfl (by simp)
    (by simp [BlockS.inports]) rfl

theorem connectStep_empty (nname : String) (bs : List (String × BlockS))
    (c : Conn)
    (res : List (String × BlockS) × List (String × Option Nat) ×
      List (String × Option Nat))
    (h : connectStep nname bs [] [] c = .ok res) :
    c.fromBlock ≠ "external" ∧ c.toBlock ≠ "external" ∧
    res.2.1 = [] ∧ res.2.2 = [] := by
  unfold connectStep at h
  by_cases h1 : c.fromBlock = "external"
  · rw [if_pos h1] at h
    simp [alookup] at h
  · rw [if_neg h1] at h
    by_cases h2 : c.toBlock = "external"
    · rw [if_pos h2] at h
      simp [alookup] at h
    · rw [if_neg h2] at h
      refine ⟨h1, h2, ?_⟩
      cases h3 : alookup bs c.fromBlock with
      | none => rw [h3] at h; simp at h
      | some fb =>
        rw [h3] at h
        dsimp only at h
        by_cases h4 : alookup fb.out_q c.fromPort = none
        · rw [if_pos h4] at h; simp at h
        · rw [if_neg h4] at h
          cases h5 : alookup bs c.toBlock with
          | none => rw [h5] at h; simp at h
          | some tb =>
            rw [h5] at h
            dsimp only at h
            cases h6 : alookup tb.in_q c.toPort with
            | none => rw [h6] at h; simp at h
            | some v =>
              rw [h6] at h
              cases v with
              | none => simp at h
              | some q =>
                simp only [Except.ok.injEq] at h
                rw [← h]
                exact ⟨rfl, rfl⟩

theorem connectFold_no_external :
    ∀ (cs : List Conn) (nname : String) (bs : List (String × BlockS)) res,
      connectFold nname bs [] [] cs = .ok res →
      ∀ c ∈ cs, c.fromBlock ≠ "external" ∧ c.toBlock ≠ "external" := by
  intro cs
  induction cs with
  | nil => intro nname bs res _ c hc; cases hc
  | cons c0 rest ih =>
    intro nname bs res h c hc
    unfold connectFold at h
    cases hstep : connectStep nname bs [] [] c0 with
    | error e => rw [hstep] at h; simp at h
    | ok st =>
      rw [hstep] at h
      have hprops := connectStep_empty nname bs c0 st hstep
      rcases List.mem_cons.mp hc with h1 | h1
      · subst h1; exact ⟨hprops.1, hprops.2.1⟩
      · obtain ⟨b2, i2, o2⟩ := st
        have hi2 : i2 = [] := hprops.2.2.1
        have ho2 : o2 = [] := hprops.2.2.2
        rw [hi2, ho2] at h
        exact ih nname b2 res h c h1

theorem mkNetwork_ok {name : String} {ip op : List String}
    {bs0 : List (String × BlockS)} {cs : List Conn} {c0 : Nat} {b : BlockS}
    {c1 : Nat} (h : mkNetwork name ip op bs0 cs c0 = .ok (b, c1)) :
    ∃ bs2 bs3 iq2 oq2, connectChildren bs0 = .ok bs2 ∧
      connectFold name bs2 [] [] cs = .ok (bs3, iq2, oq2) ∧
      b = .net name ip op bs3 cs iq2 oq2 := by
  unfold mkNetwork at h
  by_cases h1 : ip.Nodup
  · by_cases h2 : op.Nodup
    · rw [if_pos h1, if_pos h2] at h
      cases h3 : connectB (.net name ip op bs0 cs [] []) with
      | error e => rw [h3] at h; simp at h
      | ok b2 =>
        rw [h3] at h
        simp only [Except.ok.injEq, Prod.mk.injEq] at h
        unfold connectB at h3
        cases h4 : connectChildren bs0 with
        | error e => rw [h4] at h3; simp at h3
        | ok bs2 =>
          rw [h4] at h3
          dsimp only at h3
          cases h5 : connectFold name bs2 [] [] cs with
          | error e => rw [h5] at h3; simp at h3
          | ok tr =>
            obtain ⟨bs3, iq2, oq2⟩ := tr
            rw [h5] at h3
            simp only [Except.ok.injEq] at h3
            exact ⟨bs2, bs3, iq2, oq2, rfl, h5, by rw [← h.1, ← h3]⟩
    · rw [if_pos h1, if_neg h2] at h; simp at h
  · rw [if_neg h1] at h; simp at h

theorem checkConn_ok {n : String} {ip op : List String}
    {bs : List (String × BlockS)} {c : Conn}
    (h : checkConn n ip op bs c = .ok ()) :
    checkConnBI n ip bs c = .ok () ∧ checkConnBO n op bs c = .ok () ∧
    checkConnInt n bs c = .ok () := by
  unfold checkConn at h
  cases h1 : checkConnBI n ip bs c with
  | error e => rw [h1] at h; simp at h
  | ok u1 =>
    rw [h1] at h
    cases h2 : checkConnBO n op bs c with
    | error e => rw [h2] at h; simp at h
    | ok u2 =>
      rw [h2] at h
      cases u1; cases u2
      exact ⟨rfl, rfl, h⟩

theorem specConnOk_of_checkConnInt {n : String} {ip op : List String}
    {bs : List (String × BlockS)} {c : Conn}
    (hf : c.fromBlock ≠ "external") (ht : c.toBlock ≠ "external")
    (h : checkConnInt n bs c = .ok ()) : specConnOk ip op bs c = true := by
  unfold checkConnInt at h
  rw [if_pos ⟨hf, ht⟩] at h
  cases h1 : alookup bs c.fromBlock with
  | none => rw [h1] at h; simp at h
  | some fb =>
    rw [h1] at h
    dsimp only at h
    cases h2 : alookup bs c.toBlock with
    | none => rw [h2] at h; simp at h
    | some tb =>
      rw [h2] at h
      dsimp only at h
      by_cases h3 : c.fromPort ∉ fb.outports
      · rw [if_pos h3] at h; simp at h
      · rw [if_neg h3] at h
        by_cases h4 : c.toPort ∉ tb.inports
        · rw [if_pos h4] at h; simp at h
        · push_neg at h3 h4
          have hf2 : (c.fromBlock == "external") = false := by
            simp [hf]
          have ht2 : (c.toBlock == "external") = false := by
            simp [ht]
          unfold specConnOk
          rw [hf2, ht2]
          simp [h1, h2, h3, h4]

theorem srcCount_split (cs : List Conn) (bn o : String) :
    (cs.filter fun e => e.fromBlock == bn && e.fromPort == o).length =
      (outToExternal cs bn o).length + (outToInternal cs bn o).length := by
  induction cs with
  | nil => rfl
  | cons c rest ih =>
    unfold outToExternal outToInternal at *
    by_cases h1 : c.fromBlock = bn
    · by_cases h2 : c.fromPort = o
      · by_cases h3 : c.toBlock = "external"
        · simp [List.filter_cons, h1, h2, h3, ih]
          omega
        · simp [List.filter_cons, h1, h2, h3, ih]
          omega
      · simp [List.filter_cons, h1, h2, ih]
    · simp [List.filter_cons, h1, ih]

/-- C2: for every constructed Network (a value `Network.__init__` actually
returns) whose connection list violates one of the spec's wiring invariants,
`run` raises a validation error: `check` fails, and `run` reports that error
without executing any child — so no message is sent and no queue assignment
is performed by the failed `run` (the `validationError` outcome carries no
events and no store). -/
theorem C2_validation_aborts_run (name : String) (ip op : List String)
    (bs0 : List (String × BlockS)) (cs : List Conn) (c0 : Nat) (b : BlockS)
    (c1 : Nat) (hmk : mkNetwork name ip op bs0 cs c0 = .ok (b, c1))
    (hviol : specWiringOk b = false) :
    ∃ e, checkNet b = .error e ∧
      ∀ sem s, runNet b sem s = .validationError e := by
  obtain ⟨bs2, bs3, iq2, oq2, hcc, hfold, hb⟩ := mkNetwork_ok hmk
  subst hb
  cases hc : checkNet (.net name ip op bs3 cs iq2 oq2) with
  | error e => exact ⟨e, rfl, fun sem s => by simp [runNet, hc]⟩
  | ok w =>
    exfalso
    have hd := checkNetFields_ok
      (show checkNetFields name ip op bs3 cs = .ok w from hc)
    have hnoext := connectFold_no_external cs name bs2 (bs3, iq2, oq2) hfold
    have hA : ∀ c ∈ cs, specConnOk ip op bs3 c = true := by
      intro c hcm
      have hok := forEachE_ok_of_mem cs _ hd.2.1 hcm
      have hparts := checkConn_ok hok
      exact specConnOk_of_checkConnInt (hnoext c hcm).1 (hnoext c hcm).2
        hparts.2.2
    have hB : ∀ p ∈ ip, (extMatches cs p).length = 1 := by
      intro p hp
      exact assertSingleConnection_ok (forEachE_ok_of_mem ip _ hd.2.2.1 hp)
    have hC : ∀ p ∈ op, (extOutMatches cs p).length = 1 := by
      intro p hp
      exact assertSingleConnection_ok (forEachE_ok_of_mem op _ hd.2.2.2.1 hp)
    have hD : ∀ pr ∈ bs3, ∀ o2 ∈ (Prod.snd pr).outports,
        (cs.filter fun e => e.fromBlock == pr.1 && e.fromPort == o2).length
          = 1 := by
      intro pr hpr o2 ho2
      have hok := checkBlocksF_ok_mem name cs pr.1 pr.2 o2 bs3 w
        hd.2.2.2.2 hpr ho2
      rw [checkOneOutport_ok_iff] at hok
      rw [srcCount_split]
      exact hok
    have htrue : specWiringOk (.net name ip op bs3 cs iq2 oq2) = true := by
      unfold specWiringOk
      simp only [BlockS.inports, BlockS.outports, BlockS.blocks,
        BlockS.connections]
      rw [Bool.and_eq_true, Bool.and_eq_true, Bool.and_eq_true]
      refine ⟨⟨⟨?_, ?_⟩, ?_⟩, ?_⟩
      · exact List.all_eq_true.mpr hA
      · exact List.all_eq_true.mpr fun p hp => by simp [hB p hp]
      · exact List.all_eq_true.mpr fun p hp => by simp [hC p hp]
      · exact List.all_eq_true.mpr fun pr hpr =>
          List.all_eq_true.mpr fun o2 ho2 => by simp [hD pr hpr o2 ho2]
    rw [htrue] at hviol
    cases hviol

theorem C2_validation_aborts_run_witness :
    mkNetwork "Z" [] [] [("A", BlockS.agent "A" [] ["o"] [] [("o", none)])]
      [] 0 = .ok (.net "Z" [] []
        [("A", .agent "A" [] ["o"] [] [("o", none)])] [] [] [], 0) ∧
    specWiringOk (.net "Z" [] []
      [("A", .agent "A" [] ["o"] [] [("o", none)])] [] [] []) = false ∧
    ∃ e, checkNet (.net "Z" [] []
        [("A", .agent "A" [] ["o"] [] [("o", none)])] [] [] []) = .error e ∧
      ∀ sem s, runNet (.net "Z" [] []
        [("A", .agent "A" [] ["o"] [] [("o", none)])] [] [] []) sem s =
        .validationError e := by
  refine ⟨rfl, rfl, ?_⟩
  exact C2_validation_aborts_run "Z" [] []
    [("A", .agent "A" [] ["o"] [] [("o", none)])] [] 0 _ 0 rfl rfl
